import Mathlib

/-!
Shallow embedding of the billfrog usage-metering pipeline.

The embedded code is the request evaluation and metering pipeline:
the `POST /usage/track` orchestrator (routes/usage router), the
safety-filter engine and response-quality classifier
(services/safety-filters), and the token counter (utils/token-counter).

Conventions of the embedding:
* JavaScript numbers used for money and multipliers are modelled as `ℚ`
  (the source arithmetic is exact at every magnitude exercised here).
* Database reads performed by the pipeline (pricing lookup, daily-spend
  and rate-count queries) are modelled as a pure environment snapshot
  (`TrackEnv`), since the pipeline only reads them at one instant.
* The usage store is an append-only `List UsageRecord`; the SQL
  `INSERT` is a list append.
* The external provider call is an oracle input of type
  `Except String AiResponse`: the pipeline is deterministic given the
  provider outcome.
* `JSON.parse` of a filter's `rules` column is modelled by
  `RulesPayload`: `malformed` is the case where the parse throws.
-/

namespace Billfrog

/-- The apostrophe character (used in string literals below). -/
def apos : Char := Char.ofNat 39

/-- Whitespace test standing for the regex class `\s`. -/
def isWsChar (c : Char) : Bool :=
  c = ' ' || c = '\t' || c = '\n' || c = '\r' || c = '\x0c' || c = '\x0b'

/-- Word-character test standing for the regex class `\w` = `[A-Za-z0-9_]`
(used by the `\b` boundary assertions). -/
def isWordChar (c : Char) : Bool :=
  c.isAlpha || c.isDigit || c = '_'

/-- Worker for `jsSplitRuns`.  The Bool is true while inside a
separator run (the current token has already been emitted); `cur` is
the reversed token read so far. -/
def jsSplitRunsGo (p : Char → Bool) : Bool → List Char → List Char → List (List Char)
  | _, [], cur => [cur.reverse]
  | true, c :: cs, cur =>
    if p c then jsSplitRunsGo p true cs cur
    else jsSplitRunsGo p false cs [c]
  | false, c :: cs, cur =>
    if p c then cur.reverse :: jsSplitRunsGo p true cs []
    else jsSplitRunsGo p false cs (c :: cur)

/-- JavaScript `String.prototype.split` on a one-or-more character-class
regex (`/\s+/`, `/[.!?]+/`): split on maximal separator runs; a leading
or trailing run contributes an empty-string element, and splitting the
empty string yields `[""]`. -/
def jsSplitRuns (p : Char → Bool) (s : String) : List String :=
  (jsSplitRunsGo p false s.data []).map String.mk

/-- Is `t` a contiguous sublist of `s`? -/
def listIsInfix (t s : List Char) : Bool :=
  match s with
  | [] => t.isEmpty
  | _ :: rest => t.isPrefixOf s || listIsInfix t rest

/-- JavaScript `String.prototype.includes` (substring test). -/
def jsIncludes (s t : String) : Bool :=
  listIsInfix t.data s.data

/-- JavaScript `String.prototype.toLowerCase` (ASCII model). -/
def jsToLower (s : String) : String :=
  String.mk (s.data.map Char.toLower)

/-- JavaScript `String.prototype.trim`. -/
def jsTrim (s : String) : String :=
  String.mk (((s.data.dropWhile isWsChar).reverse.dropWhile isWsChar).reverse)

/-- Does `s` end with `t`?  (The anchored regex `/\.\.\.$/` and friends.) -/
def jsEndsWith (s t : String) : Bool :=
  t.data.isSuffixOf s.data

/-- JavaScript truthiness of an optional string: `undefined` and the
empty string are falsy. -/
def jsTruthyStr (o : Option String) : Bool :=
  match o with
  | none => false
  | some s => s ≠ ""

/-- JavaScript truthiness of an optional number: `undefined` and `0`
are falsy. -/
def jsTruthyQ (o : Option ℚ) : Bool :=
  match o with
  | none => false
  | some q => q ≠ 0

/-- JavaScript truthiness of an optional integer: `undefined` and `0`
are falsy. -/
def jsTruthyNat (o : Option Nat) : Bool :=
  match o with
  | none => false
  | some n => n ≠ 0

/-- `Math.ceil` on the exact rational value, returned as a `Nat`
(every use site is non-negative). -/
def jsCeilNat (q : ℚ) : Nat :=
  (Int.toNat ⌈q⌉)

/-- JavaScript property update `obj[k] = v` on an object modelled as an
insertion-ordered association list: overwrite in place if the key is
present, otherwise append. -/
def jsSet {β : Type} (m : List (String × β)) (k : String) (v : β) : List (String × β) :=
  if m.any (fun p => p.1 = k) then
    m.map (fun p => if p.1 = k then (k, v) else p)
  else
    m ++ [(k, v)]

/-! ## Token counter (utils/token-counter, `src/unnamed/part_004`) -/

/-- `TOKEN_MULTIPLIERS` from the token counter: per-word multiplier per
provider. -/
def TOKEN_MULTIPLIERS : List (String × ℚ) :=
  [("openai", 13/10), ("anthropic", 12/10), ("google", 11/10), ("default", 5/4)]

/-- `countTokens(text, provider)`: 0 for absent or empty text, else the
ceiling of the non-empty whitespace-separated word count scaled by the
provider multiplier (`TOKEN_MULTIPLIERS[provider.toLowerCase()] ||
TOKEN_MULTIPLIERS.default`). -/
def countTokens (text : Option String) (provider : String) : Nat :=
  match text with
  | none => 0
  | some t =>
    if t = "" then 0
    else
      let words := (jsSplitRuns isWsChar (jsTrim t)).filter (fun w => w.length > 0)
      let multiplier := ((TOKEN_MULTIPLIERS.lookup (jsToLower provider)).getD (5/4))
      jsCeilNat ((words.length : ℚ) * multiplier)

/-- `estimateTokenCount(text)` from the safety-filter module:
`Math.ceil(text.split(/\s+/).length * 1.3)` (note: no trim, no
filtering of empty fragments). -/
def estimateTokenCount (text : String) : Nat :=
  jsCeilNat (((jsSplitRuns isWsChar text).length : ℚ) * (13/10))

/-! ## Regex scanning primitives

The source tests and counts matches of a handful of concrete regular
expressions.  Each pattern is compiled by hand into a deterministic
matcher over `List Char`; `\b` assertions use the JavaScript word-class
`[A-Za-z0-9_]`. -/

/-- Is the optional character a word character (`\w`)?  `none` stands
for a string edge. -/
def isWordOpt (o : Option Char) : Bool :=
  match o with
  | none => false
  | some c => isWordChar c

/-- Consume exactly `n` digits (`\d{n}`). -/
def takeDigits : Nat → List Char → Option (List Char)
  | 0, cs => some cs
  | _ + 1, [] => none
  | n + 1, c :: cs => if c.isDigit then takeDigits n cs else none

/-- Consume one expected literal character. -/
def expectChar (ch : Char) : List Char → Option (List Char)
  | [] => none
  | c :: cs => if c = ch then some cs else none

/-- Consume a maximal non-empty digit run (`\d+`; no backtracking is
needed because every continuation in the source patterns starts with a
non-digit). -/
def takeDigitRun : List Char → Option (List Char)
  | [] => none
  | c :: cs => if c.isDigit then some (cs.dropWhile Char.isDigit) else none

/-- Consume an optional separator (`[\s-]?`; deterministic because the
continuations expect digits). -/
def takeOptSep : List Char → List Char
  | [] => []
  | c :: cs => if isWsChar c || c = '-' then cs else c :: cs

/-- `/\d{4}-\d{2}-\d{2}/` (specific dates) at one position. -/
def matchDateAt (_ : Option Char) (cs : List Char) : Option (List Char) := do
  let cs ← takeDigits 4 cs
  let cs ← expectChar '-' cs
  let cs ← takeDigits 2 cs
  let cs ← expectChar '-' cs
  takeDigits 2 cs

/-- `/\$\d+\.\d{2}/` (specific prices) at one position. -/
def matchPriceAt (_ : Option Char) (cs : List Char) : Option (List Char) := do
  let cs ← expectChar '$' cs
  let cs ← takeDigitRun cs
  let cs ← expectChar '.' cs
  takeDigits 2 cs

/-- `/\b\d{3}-\d{3}-\d{4}\b/` (phone numbers) at one position. -/
def matchPhoneAt (prev : Option Char) (cs : List Char) : Option (List Char) :=
  if isWordOpt prev then none
  else
    match (do
      let r ← takeDigits 3 cs
      let r ← expectChar '-' r
      let r ← takeDigits 3 r
      let r ← expectChar '-' r
      takeDigits 4 r : Option (List Char)) with
    | none => none
    | some rest => if isWordOpt rest.head? then none else some rest

/-- `/\b\d{3}-\d{2}-\d{4}\b/` (SSN-like) at one position. -/
def matchSSNAt (prev : Option Char) (cs : List Char) : Option (List Char) :=
  if isWordOpt prev then none
  else
    match (do
      let r ← takeDigits 3 cs
      let r ← expectChar '-' r
      let r ← takeDigits 2 r
      let r ← expectChar '-' r
      takeDigits 4 r : Option (List Char)) with
    | none => none
    | some rest => if isWordOpt rest.head? then none else some rest

/-- `/\b\d{4}[\s-]?\d{4}[\s-]?\d{4}[\s-]?\d{4}\b/` (credit-card-like)
at one position. -/
def matchCreditCardAt (prev : Option Char) (cs : List Char) : Option (List Char) :=
  if isWordOpt prev then none
  else
    match (do
      let r ← takeDigits 4 cs
      let r ← takeDigits 4 (takeOptSep r)
      let r ← takeDigits 4 (takeOptSep r)
      takeDigits 4 (takeOptSep r) : Option (List Char)) with
    | none => none
    | some rest => if isWordOpt rest.head? then none else some rest

/-- Character class `[A-Za-z0-9._%+-]` (email local part). -/
def isEmailLocalChar (c : Char) : Bool :=
  c.isAlpha || c.isDigit || c = '.' || c = '_' || c = '%' || c = '+' || c = '-'

/-- Character class `[A-Za-z0-9.-]` (email domain part). -/
def isEmailDomainChar (c : Char) : Bool :=
  c.isAlpha || c.isDigit || c = '.' || c = '-'

/-- Character class `[A-Z|a-z]` (email TLD part; the source class
contains a literal `|`). -/
def isEmailTldChar (c : Char) : Bool :=
  c.isAlpha || c = '|'

/-- Remainder of the email pattern after the consumed `\.`:
`[A-Z|a-z]{2,}\b`, with backtracking over the greedy `{2,}` expressed
as a search over candidate lengths. -/
def emailTldOk (cs : List Char) : Bool :=
  let run := cs.takeWhile isEmailTldChar
  (List.range (run.length + 1)).any (fun l =>
    2 ≤ l && l ≤ run.length &&
      isWordOpt (run.get? (l - 1)) != isWordOpt (cs.drop l).head?)

/-- Remainder of the email pattern after the consumed `@`:
`[A-Za-z0-9.-]+\.[A-Z|a-z]{2,}\b`, with backtracking over the greedy
domain run expressed as a search over candidate split points. -/
def emailAfterAt (cs : List Char) : Bool :=
  (List.range (cs.length + 1)).any (fun j =>
    1 ≤ j && (cs.take j).all isEmailDomainChar &&
      (match cs.drop j with
       | [] => false
       | c :: rest => c = '.' && emailTldOk rest))

/-- `/\b[A-Za-z0-9._%+-]+@[A-Za-z0-9.-]+\.[A-Z|a-z]{2,}\b/` (email) at
one position; the leading `\b` compares word-ness of the previous
character and of the first matched character. -/
def emailMatchAt (prev : Option Char) (cs : List Char) : Bool :=
  (isWordOpt prev != isWordOpt cs.head?) &&
    (let localRun := cs.takeWhile isEmailLocalChar
     localRun.length > 0 &&
       (match cs.drop localRun.length with
        | [] => false
        | c :: rest => c = '@' && emailAfterAt rest))

/-- `pattern.test(s)`: does the matcher succeed at any position? -/
def scanPosAny (m : Option Char → List Char → Bool) : Option Char → List Char → Bool
  | prev, [] => m prev []
  | prev, c :: rest => m prev (c :: rest) || scanPosAny m (some c) rest

/-- `s.match(pattern).length` with the `g` flag: count non-overlapping
matches scanning left to right, resuming after each match.  `fuel`
bounds the recursion (it starts above the text length and every step
consumes at least one character). -/
def scanCountAux (m : Option Char → List Char → Option (List Char)) :
    Nat → Option Char → List Char → Nat
  | 0, _, _ => 0
  | fuel + 1, prev, cs =>
    match m prev cs with
    | some rest =>
      let consumed := cs.length - rest.length
      1 + scanCountAux m fuel (cs.get? (consumed - 1)) rest
    | none =>
      match cs with
      | [] => 0
      | c :: rest => scanCountAux m fuel (some c) rest

/-- Count matches of a pattern in a string. -/
def scanCount (m : Option Char → List Char → Option (List Char)) (s : String) : Nat :=
  scanCountAux m (s.data.length + 1) none s.data

/-- Test a pattern against a string. -/
def scanTest (m : Option Char → List Char → Bool) (s : String) : Bool :=
  scanPosAny m none s.data

/-! ## Response quality classifier (services/safety-filters) -/

/-- The honest-disclaimer patterns of `checkForHallucination`
(each tested case-insensitively). -/
def hallucinationPatterns : List String :=
  ["I don" ++ apos.toString ++ "t have access to",
   "I cannot browse the internet",
   "As an AI, I don" ++ apos.toString ++ "t have",
   "I" ++ apos.toString ++ "m not able to access"]

/-- `checkForHallucination(prompt, response)`: a response more than five
times the prompt length is flagged immediately; otherwise an honest
disclaimer clears the response; otherwise more than three
suspiciously-specific facts (dates, prices, phone numbers) flag it. -/
def checkForHallucination (prompt response : String) : Bool :=
  if response.length > prompt.length * 5 then true
  else if hallucinationPatterns.any (fun p => jsIncludes (jsToLower response) (jsToLower p)) then false
  else
    scanCount matchDateAt response + scanCount matchPriceAt response +
        scanCount matchPhoneAt response > 3

/-- `checkForRepetition(response)`: more than three sentences and fewer
than 70% of them distinct after trimming and lowercasing. -/
def checkForRepetition (response : String) : Bool :=
  let sentences := (jsSplitRuns (fun c => c = '.' || c = '!' || c = '?') response).filter
    (fun s => (jsTrim s).length > 0)
  let uniqueSentences := (sentences.map (fun s => jsToLower (jsTrim s))).dedup
  sentences.length > 3 && decide ((uniqueSentences.length : ℚ) < (sentences.length : ℚ) * (7/10))

/-- `checkForIncompleteResponse(response)`: trailing ellipsis or an
explicit truncation marker. -/
def checkForIncompleteResponse (response : String) : Bool :=
  jsEndsWith response "..." ||
    jsIncludes (jsToLower response) "[incomplete]" ||
    jsIncludes (jsToLower response) "[truncated]" ||
    jsIncludes (jsToLower response) "[cut off]"

/-- The `\b(...)\b`-delimited word alternatives of
`checkForInappropriateContent`, flattened. -/
def inappropriateWords : List String :=
  ["hate", "racist", "sexist", "discriminatory",
   "violence", "violent", "kill", "murder",
   "illegal", "crime", "criminal"]

/-- Word match `\bw\b` (case already normalised by the caller). -/
def wordMatchAt (w : List Char) (prev : Option Char) (cs : List Char) : Bool :=
  !isWordOpt prev && w.isPrefixOf cs && !isWordOpt (cs.drop w.length).head?

/-- `checkForInappropriateContent(response)`: any of the configured
word patterns matches case-insensitively. -/
def checkForInappropriateContent (response : String) : Bool :=
  inappropriateWords.any (fun w => scanTest (wordMatchAt w.data) (jsToLower response))

/-- `checkResponseQuality(prompt, response).flags`: the non-blocking
quality flag list, in the order the source pushes them. -/
def checkResponseQuality (prompt response : String) : List String :=
  (if checkForHallucination prompt response then ["potential_hallucination"] else []) ++
  (if checkForRepetition response then ["repetitive_response"] else []) ++
  (if checkForIncompleteResponse response then ["incomplete_response"] else []) ++
  (if checkForInappropriateContent response then ["inappropriate_content"] else [])

/-! ## Data model -/

/-- One `model_pricing` row as returned by `getModelPricing`. -/
structure Pricing where
  input_cost_per_1k_tokens : ℚ
  output_cost_per_1k_tokens : ℚ
deriving DecidableEq

/-- A parsed `rules` JSON object.  Absent keys are `none`/`false`,
mirroring the JavaScript truthiness tests at each use site. -/
structure FilterRules where
  blocked_keywords : Option (List String) := none
  max_prompt_length : Option Nat := none
  check_pii : Bool := false
  block_pii : Bool := false
  max_cost_per_call : Option ℚ := none
  daily_spending_limit : Option ℚ := none
  max_calls_per_minute : Option Nat := none
  max_calls_per_hour : Option Nat := none
  max_calls_per_day : Option Nat := none
  allowed_models : Option (List String) := none
  blocked_models : Option (List String) := none
deriving DecidableEq

/-- The raw `rules` column: `JSON.parse` either throws (`malformed`) or
yields a rules object. -/
inductive RulesPayload
  | malformed
  | parsed (rules : FilterRules)
deriving DecidableEq

/-- Does parsing this payload throw? -/
def RulesPayload.isMalformed : RulesPayload → Bool
  | .malformed => true
  | .parsed _ => false

/-- One active row of the `safety_filters` table. -/
structure SafetyFilter where
  name : String
  filter_type : String
  rules : RulesPayload
deriving DecidableEq

/-- A single flag value inside one filter's flag object. -/
inductive FlagVal
  | b (v : Bool)
  | s (v : String)
  | q (v : ℚ)
deriving DecidableEq

/-- A value of the aggregated `safety_flags` object: per-filter flag
objects keyed by filter name, the generic `error` string of the
fallback branch, or the `quality_issues` string list added by the
orchestrator. -/
inductive TopFlag
  | str (v : String)
  | obj (fl : List (String × FlagVal))
  | strs (l : List String)
deriving DecidableEq

/-- The result one filter application returns.  `flags` is `none` only
for the unknown-filter-type branch, whose returned object has no
`flags` property. -/
structure FilterResult where
  allowed : Bool
  reason : String
  flags : Option (List (String × FlagVal))
deriving DecidableEq

/-- The generation options the pipeline's persistence logic inspects.
Remaining generation options (max_tokens, temperature, ...) are passed
through opaquely to the provider call, which is an oracle here. -/
structure TrackOptions where
  retry_of : Option String := none
  retry_count : Option Nat := none
deriving DecidableEq

/-- The `POST /usage/track` request body; `none` models an absent
field. -/
structure TrackRequest where
  user_id : Option String := none
  team_id : Option String := none
  session_id : Option String := none
  model_provider : Option String := none
  model_name : Option String := none
  prompt : Option String := none
  api_key : Option String := none
  options : TrackOptions := {}
deriving DecidableEq

/-- The prompt string the handler destructures (validated truthy before
use). -/
def promptOf (req : TrackRequest) : String := req.prompt.getD ""

/-- Snapshot of everything the pipeline reads from its surroundings:
the active safety filters, the database reads the filters and the
orchestrator perform, the wall-clock measurement, and the generated
record id. -/
structure TrackEnv where
  filters : List SafetyFilter
  pricing : Option Pricing
  dailySpendingToday : Option ℚ
  callsLastMinute : Nat
  callsLastHour : Nat
  callsToday : Nat
  elapsed_ms : Nat
  newId : String
  user_agent : String
  ip_address : String
  timestampStr : String
deriving DecidableEq

/-- Add one flag to a filter result (property assignment on its `flags`
object). -/
def addFlag (r : FilterResult) (k : String) (v : FlagVal) : FilterResult :=
  { r with flags := r.flags.map (fun fl => jsSet fl k v) }

/-! ## Safety/policy filters (services/safety-filters) -/

/-- Does the prompt match any of the four PII patterns
(SSN, credit card, email, phone)?  The source loop breaks at the first
matching pattern, which coincides with this disjunction. -/
def piiTest (prompt : String) : Bool :=
  scanTest (fun p cs => (matchSSNAt p cs).isSome) prompt ||
  scanTest (fun p cs => (matchCreditCardAt p cs).isSome) prompt ||
  scanTest emailMatchAt prompt ||
  scanTest (fun p cs => (matchPhoneAt p cs).isSome) prompt

/-- `applyContentFilter(rules, requestData)`: blocked keywords (first
hit wins and breaks), prompt length ceiling, then optional PII check.
A later check overwrites the denial reason of an earlier one. -/
def applyContentFilter (rules : FilterRules) (req : TrackRequest) : FilterResult :=
  let prompt := promptOf req
  let r0 : FilterResult := { allowed := true, reason := "", flags := some [] }
  let r1 :=
    match rules.blocked_keywords with
    | some kws =>
      if kws.length > 0 then
        let blockedWords := kws.map jsToLower
        let promptLower := jsToLower prompt
        match blockedWords.find? (fun w => jsIncludes promptLower w) with
        | some w =>
          { (addFlag r0 "blocked_keyword" (FlagVal.s w)) with
            allowed := false, reason := "Contains blocked keyword: " ++ w }
        | none => r0
      else r0
    | none => r0
  let r2 :=
    if jsTruthyNat rules.max_prompt_length &&
        prompt.length > rules.max_prompt_length.getD 0 then
      { (addFlag r1 "prompt_too_long" (FlagVal.b true)) with
        allowed := false,
        reason := "Prompt too long: " ++ toString prompt.length ++ " > " ++
          toString (rules.max_prompt_length.getD 0) }
    else r1
  if rules.check_pii then
    if piiTest prompt then
      let rp := addFlag r2 "potential_pii" (FlagVal.b true)
      if rules.block_pii then
        { rp with allowed := false, reason := "Contains potential PII" }
      else rp
    else r2
  else r2

/-- `applyCostFilter(rules, requestData)`: missing pricing short-circuits
with only a `no_pricing_info` flag; otherwise the projected cost is
checked against the per-call ceiling and the daily limit, and always
recorded as an `estimated_cost` flag.  Numeric formatting inside reason
strings (`toFixed(6)`) is abstracted to `toString`. -/
def applyCostFilter (env : TrackEnv) (rules : FilterRules) (req : TrackRequest) : FilterResult :=
  let r0 : FilterResult := { allowed := true, reason := "", flags := some [] }
  match env.pricing with
  | none => addFlag r0 "no_pricing_info" (FlagVal.b true)
  | some pricing =>
    let estimatedTokens := estimateTokenCount (promptOf req)
    let estimatedCost := (estimatedTokens : ℚ) * pricing.input_cost_per_1k_tokens / 1000
    let r1 :=
      if jsTruthyQ rules.max_cost_per_call &&
          estimatedCost > rules.max_cost_per_call.getD 0 then
        { (addFlag r0 "cost_too_high" (FlagVal.b true)) with
          allowed := false,
          reason := "Estimated cost too high: $" ++ toString estimatedCost ++ " > $" ++
            toString (rules.max_cost_per_call.getD 0) }
      else r0
    let r2 :=
      if jsTruthyQ rules.daily_spending_limit then
        let currentSpending := env.dailySpendingToday.getD 0
        if currentSpending + estimatedCost > rules.daily_spending_limit.getD 0 then
          { (addFlag r1 "daily_limit_exceeded" (FlagVal.b true)) with
            allowed := false,
            reason := "Daily spending limit exceeded: $" ++ toString currentSpending ++
              " + $" ++ toString estimatedCost ++ " > $" ++
              toString (rules.daily_spending_limit.getD 0) }
        else r1
      else r1
    addFlag r2 "estimated_cost" (FlagVal.q estimatedCost)

/-- `applyRateFilter(rules, requestData)`: per-minute, per-hour and
per-day call-count ceilings, each independently checked against the
store-derived counts in the environment. -/
def applyRateFilter (env : TrackEnv) (rules : FilterRules) : FilterResult :=
  let r0 : FilterResult := { allowed := true, reason := "", flags := some [] }
  let r1 :=
    if jsTruthyNat rules.max_calls_per_minute &&
        env.callsLastMinute ≥ rules.max_calls_per_minute.getD 0 then
      { (addFlag r0 "rate_limit_exceeded" (FlagVal.b true)) with
        allowed := false,
        reason := "Rate limit exceeded: " ++ toString env.callsLastMinute ++
          " calls per minute" }
    else r0
  let r2 :=
    if jsTruthyNat rules.max_calls_per_hour &&
        env.callsLastHour ≥ rules.max_calls_per_hour.getD 0 then
      { (addFlag r1 "hourly_limit_exceeded" (FlagVal.b true)) with
        allowed := false,
        reason := "Hourly rate limit exceeded: " ++ toString env.callsLastHour ++
          " calls per hour" }
    else r1
  if jsTruthyNat rules.max_calls_per_day &&
      env.callsToday ≥ rules.max_calls_per_day.getD 0 then
    { (addFlag r2 "daily_limit_exceeded" (FlagVal.b true)) with
      allowed := false,
      reason := "Daily rate limit exceeded: " ++ toString env.callsToday ++
        " calls per day" }
  else r2

/-- `applyModelFilter(rules, requestData)`: allow-list then block-list
on the `provider/model` key. -/
def applyModelFilter (rules : FilterRules) (req : TrackRequest) : FilterResult :=
  let modelKey := (req.model_provider.getD "") ++ "/" ++ (req.model_name.getD "")
  let r0 : FilterResult := { allowed := true, reason := "", flags := some [] }
  let r1 :=
    match rules.allowed_models with
    | some l =>
      if l.length > 0 && !l.contains modelKey then
        { (addFlag r0 "model_not_allowed" (FlagVal.b true)) with
          allowed := false, reason := "Model not allowed: " ++ modelKey }
      else r0
    | none => r0
  match rules.blocked_models with
  | some l =>
    if l.length > 0 && l.contains modelKey then
      { (addFlag r1 "model_blocked" (FlagVal.b true)) with
        allowed := false, reason := "Model blocked: " ++ modelKey }
    else r1
  | none => r1

/-- `applyFilter(filter, rules, requestData)`: dispatch on
`filter_type`; an unknown type allows with no flags object. -/
def applyFilter (env : TrackEnv) (filterType : String) (rules : FilterRules)
    (req : TrackRequest) : FilterResult :=
  if filterType = "content" then applyContentFilter rules req
  else if filterType = "cost" then applyCostFilter env rules req
  else if filterType = "rate" then applyRateFilter env rules
  else if filterType = "model" then applyModelFilter rules req
  else { allowed := true, reason := "Unknown filter type", flags := none }

/-- The loop body's parse-then-apply, as a function of the stored
filter.  The `malformed` case is unreachable: `checkFilters` falls back
before iterating whenever any rules payload is malformed. -/
def applyFilterOf (env : TrackEnv) (req : TrackRequest) (f : SafetyFilter) : FilterResult :=
  match f.rules with
  | .malformed => { allowed := true, reason := "", flags := none }
  | .parsed rules => applyFilter env f.filter_type rules req

/-- One denial entry of the aggregate result. -/
structure Reason where
  filter : String
  reason : String
deriving DecidableEq

/-- The aggregate result of `checkFilters`. -/
structure CheckResult where
  allowed : Bool
  reasons : List Reason
  flags : List (String × TopFlag)
deriving DecidableEq

/-- One iteration of the `checkFilters` loop. -/
def checkStep (env : TrackEnv) (req : TrackRequest) (acc : CheckResult)
    (f : SafetyFilter) : CheckResult :=
  let filterResult := applyFilterOf env req f
  let acc1 :=
    if filterResult.allowed then acc
    else { acc with allowed := false,
                    reasons := acc.reasons ++ [⟨f.name, filterResult.reason⟩] }
  match filterResult.flags with
  | some fl => { acc1 with flags := jsSet acc1.flags f.name (TopFlag.obj fl) }
  | none => acc1

/-- The `checkFilters` loop over the active filters. -/
def checkLoop (env : TrackEnv) (req : TrackRequest) :
    List SafetyFilter → CheckResult → CheckResult
  | [], acc => acc
  | f :: fs, acc => checkLoop env req fs (checkStep env req acc f)

/-- The catch-branch result of `checkFilters`: any internal error
(modelled: a rules payload whose parse throws) yields a blanket allow
with a single generic error flag. -/
def filterCheckFallback : CheckResult :=
  { allowed := true, reasons := [],
    flags := [("error", TopFlag.str "Safety filter check failed")] }

/-- `checkFilters(requestData)`: run every active filter and aggregate;
a thrown `JSON.parse` anywhere escapes the loop and produces the
fallback result. -/
def checkFilters (env : TrackEnv) (req : TrackRequest) : CheckResult :=
  if env.filters.any (fun f => f.rules.isMalformed) then
    filterCheckFallback
  else
    checkLoop env req env.filters { allowed := true, reasons := [], flags := [] }

/-! ## Tracking orchestrator (`POST /usage/track`, routes/usage router) -/

/-- The provider adapter's normalised reply. -/
structure AiResponse where
  response : String
  model : Option String := none
  finish_reason : Option String := none

/-- The record's `metadata` object: the fixed caller-context keys plus
the spread of the request options, plus the two keys the success branch
adds. -/
structure RecordMetadata where
  user_agent : String
  ip_address : String
  timestamp : String
  retry_of : Option String := none
  retry_count : Option Nat := none
  actual_model : Option String := none
  finish_reason : Option String := none
deriving DecidableEq

/-- One row of `usage_logs` (the persisted UsageRecord). -/
structure UsageRecord where
  id : String
  user_id : Option String
  team_id : Option String
  session_id : Option String
  model_provider : String
  model_name : String
  prompt : String
  response : Option String := none
  input_tokens : Nat
  output_tokens : Nat
  total_tokens : Nat
  cost_per_input_token : ℚ
  cost_per_output_token : ℚ
  total_cost : ℚ
  status : String
  error_message : Option String := none
  retry_count : Nat
  response_time_ms : Nat
  safety_flags : List (String × TopFlag)
  metadata : RecordMetadata
deriving DecidableEq

/-- The required-field check of the track handler:
`!model_provider || !model_name || !prompt || !api_key` rejects. -/
def validateTrack (req : TrackRequest) : Bool :=
  jsTruthyStr req.model_provider && jsTruthyStr req.model_name &&
    jsTruthyStr req.prompt && jsTruthyStr req.api_key

/-- The `usageData` object as first constructed, before the provider
call: zero counts and cost, pricing snapshot per token, status
`processing`, the pre-check safety flags, and the metadata spread. -/
def baseUsageData (env : TrackEnv) (req : TrackRequest) : UsageRecord :=
  let safetyCheck := checkFilters env req
  { id := env.newId
    user_id := req.user_id
    team_id := req.team_id
    session_id := req.session_id
    model_provider := req.model_provider.getD ""
    model_name := req.model_name.getD ""
    prompt := promptOf req
    response := none
    input_tokens := 0
    output_tokens := 0
    total_tokens := 0
    cost_per_input_token :=
      match env.pricing with
      | some p => p.input_cost_per_1k_tokens / 1000
      | none => 0
    cost_per_output_token :=
      match env.pricing with
      | some p => p.output_cost_per_1k_tokens / 1000
      | none => 0
    total_cost := 0
    status := "processing"
    error_message := none
    retry_count := 0
    response_time_ms := 0
    safety_flags := safetyCheck.flags
    metadata :=
      { user_agent := env.user_agent
        ip_address := env.ip_address
        timestamp := env.timestampStr
        retry_of := req.options.retry_of
        retry_count := req.options.retry_count } }

/-- The `usageData` object as persisted: the success branch counts
tokens, computes cost, runs the quality classifier and possibly
escalates to `hallucination`; the catch branch records the provider
error as a `failure`. -/
def finalRecord (env : TrackEnv) (req : TrackRequest)
    (aiRes : Except String AiResponse) : UsageRecord :=
  let base := baseUsageData env req
  match aiRes with
  | .error msg =>
    { base with status := "failure", error_message := some msg,
                response_time_ms := env.elapsed_ms }
  | .ok aiResponse =>
    let inputTokens := countTokens req.prompt (req.model_provider.getD "")
    let outputTokens := countTokens (some aiResponse.response) (req.model_provider.getD "")
    let inputCost := (inputTokens : ℚ) * base.cost_per_input_token
    let outputCost := (outputTokens : ℚ) * base.cost_per_output_token
    let succeeded :=
      { base with
        response := some aiResponse.response
        input_tokens := inputTokens
        output_tokens := outputTokens
        total_tokens := inputTokens + outputTokens
        total_cost := inputCost + outputCost
        status := "success"
        response_time_ms := env.elapsed_ms
        metadata :=
          { base.metadata with
            actual_model := some
              (match aiResponse.model with
               | some m => if m = "" then req.model_name.getD "" else m
               | none => req.model_name.getD "")
            finish_reason := aiResponse.finish_reason } }
    let qualityFlags := checkResponseQuality (promptOf req) aiResponse.response
    if qualityFlags.length > 0 then
      { succeeded with
        status := "hallucination"
        safety_flags := jsSet succeeded.safety_flags "quality_issues" (TopFlag.strs qualityFlags) }
    else succeeded

/-- The `usage` object of the JSON reply. -/
structure UsageReply where
  input_tokens : Nat
  output_tokens : Nat
  total_tokens : Nat
  cost : ℚ
deriving DecidableEq

/-- The JSON reply of a completed (non-rejected) track request. -/
structure ResponseBody where
  id : String
  response : Option String
  usage : UsageReply
  status : String
  response_time_ms : Nat
  safety_flags : List (String × TopFlag)
deriving DecidableEq

/-- Build the completed reply from the persisted record. -/
def respBody (r : UsageRecord) : ResponseBody :=
  { id := r.id
    response := r.response
    usage :=
      { input_tokens := r.input_tokens
        output_tokens := r.output_tokens
        total_tokens := r.total_tokens
        cost := r.total_cost }
    status := r.status
    response_time_ms := r.response_time_ms
    safety_flags := r.safety_flags }

/-- What the track handler sends back: a 400 validation rejection, a
403 safety denial carrying the aggregated reasons, or a 200 completed
body. -/
inductive TrackResult
  | validationError
  | denied (reasons : List Reason)
  | completed (body : ResponseBody)
deriving DecidableEq

/-- `POST /usage/track`: validate, pre-check filters, run the provider
call (the oracle `aiRes`), finalise the record and append it to the
store.  Rejected requests leave the store untouched. -/
def runTrack (env : TrackEnv) (req : TrackRequest) (aiRes : Except String AiResponse)
    (store : List UsageRecord) : TrackResult × List UsageRecord :=
  if !validateTrack req then (.validationError, store)
  else
    let safetyCheck := checkFilters env req
    if !safetyCheck.allowed then (.denied safetyCheck.reasons, store)
    else
      let r := finalRecord env req aiRes
      (.completed (respBody r), store ++ [r])

/-- What the retry handler sends back. -/
inductive RetryResult
  | notFound
  | cannotRetrySuccess
  | tracked (result : TrackResult)
deriving DecidableEq

/-- `POST /usage/retry/:id`: look up the original record, refuse to
retry a success, and re-enter the track handler with a rebuilt body
whose options carry `retry_of` and an incremented `retry_count`. -/
def runRetry (env : TrackEnv) (id : String) (api_key : Option String)
    (aiRes : Except String AiResponse) (store : List UsageRecord) :
    RetryResult × List UsageRecord :=
  match store.find? (fun r => r.id == id) with
  | none => (.notFound, store)
  | some originalLog =>
    if originalLog.status = "success" then (.cannotRetrySuccess, store)
    else
      let retryReq : TrackRequest :=
        { user_id := originalLog.user_id
          team_id := originalLog.team_id
          session_id := originalLog.session_id
          model_provider := some originalLog.model_provider
          model_name := some originalLog.model_name
          prompt := some originalLog.prompt
          api_key := api_key
          options :=
            { retry_of := some id
              retry_count := some (originalLog.retry_count + 1) } }
      let result := runTrack env retryReq aiRes store
      (.tracked result.1, result.2)

/-! ## Statement-side definitions

`wordCount` and `specProviderFactor` restate the specification's
wording of the token-estimation contract: the number of
whitespace-separated non-empty words, and the per-provider factor
(provider identifiers compared case-insensitively, as the enum values
are lowercase). -/

/-- The number of whitespace-separated non-empty words in a text. -/
def wordCount (text : String) : Nat :=
  ((jsSplitRuns isWsChar (jsTrim text)).filter (fun w => w.length > 0)).length

/-- The provider factor the specification states: 1.3 for openai, 1.2
for anthropic, 1.1 for google, 1.25 for any other provider. -/
def specProviderFactor (provider : String) : ℚ :=
  if jsToLower provider = "openai" then 13/10
  else if jsToLower provider = "anthropic" then 12/10
  else if jsToLower provider = "google" then 11/10
  else 5/4

/-! ## Concrete instances used by witnesses and counterexamples -/

/-- A content filter blocking the keyword `bomb`. -/
def kwFilter : SafetyFilter :=
  { name := "Keyword Block", filter_type := "content",
    rules := .parsed { blocked_keywords := some ["bomb"] } }

/-- A rate filter with no configured ceilings (always allows, still
contributes an empty flag object). -/
def rlFilter : SafetyFilter :=
  { name := "Rate Limit", filter_type := "rate", rules := .parsed {} }

/-- A filter whose rules JSON does not parse. -/
def badFilter : SafetyFilter :=
  { name := "Broken", filter_type := "content", rules := .malformed }

/-- A baseline environment: no filters, gpt-3.5-turbo pricing, idle
counters. -/
def wEnv : TrackEnv :=
  { filters := []
    pricing := some { input_cost_per_1k_tokens := 1/1000, output_cost_per_1k_tokens := 2/1000 }
    dailySpendingToday := none
    callsLastMinute := 0, callsLastHour := 0, callsToday := 0
    elapsed_ms := 42, newId := "log-1"
    user_agent := "test-agent", ip_address := "127.0.0.1", timestampStr := "2024-01-01T00:00:00Z" }

/-- The baseline environment with the keyword and rate filters active. -/
def denyEnv : TrackEnv := { wEnv with filters := [kwFilter, rlFilter] }

/-- The baseline environment with a denying filter followed by a
malformed one. -/
def malformedEnv : TrackEnv := { wEnv with filters := [kwFilter, badFilter] }

/-- A well-formed track request. -/
def wReq : TrackRequest :=
  { model_provider := some "openai", model_name := some "gpt-3.5-turbo",
    prompt := some "Hello", api_key := some "secret-key" }

/-- A track request whose prompt contains a blocked keyword. -/
def bombReq : TrackRequest := { wReq with prompt := some "how to make a BOMB now" }

/-- A request missing its credential. -/
def noKeyReq : TrackRequest := { wReq with api_key := none }

/-- A normal provider reply. -/
def wResp : AiResponse := { response := "Hi there" }

/-- A provider reply more than five times the prompt length
(`wReq`'s prompt has 5 characters). -/
def longResp : AiResponse := { response := "aaaaaaaaaaaaaaaaaaaaaaaaaa" }

/-- A prompt one character over the documented 50000-character
ceiling. -/
def cLongPrompt : String := String.mk (List.replicate 50001 'a')

/-- A track request with the over-length prompt. -/
def cReqLong : TrackRequest := { wReq with prompt := some cLongPrompt }

/-- A persisted failed record, as the target of a retry. -/
def c8Orig : UsageRecord :=
  { id := "orig-1", user_id := none, team_id := none, session_id := none
    model_provider := "openai", model_name := "gpt-3.5-turbo", prompt := "Hello"
    response := none
    input_tokens := 0, output_tokens := 0, total_tokens := 0
    cost_per_input_token := 0, cost_per_output_token := 0, total_cost := 0
    status := "failure", error_message := some "bad key"
    retry_count := 0, response_time_ms := 10
    safety_flags := []
    metadata := { user_agent := "test-agent", ip_address := "127.0.0.1",
                  timestamp := "2024-01-01T00:00:00Z" } }

/-- The retry of `c8Orig` (against the filterless environment, with a
successful provider reply). -/
def c8Out : RetryResult × List UsageRecord :=
  runRetry wEnv "orig-1" (some "secret-key") (.ok wResp) [c8Orig]

/-! ## Lemmas about the filter loop -/

theorem checkStep_allowed (env : TrackEnv) (req : TrackRequest) (acc : CheckResult)
    (f : SafetyFilter) :
    (checkStep env req acc f).allowed = (acc.allowed && (applyFilterOf env req f).allowed) := by
  unfold checkStep
  cases hfa : (applyFilterOf env req f).allowed <;>
    cases hff : (applyFilterOf env req f).flags <;> simp [hfa, hff]

theorem checkStep_reasons (env : TrackEnv) (req : TrackRequest) (acc : CheckResult)
    (f : SafetyFilter) :
    (checkStep env req acc f).reasons =
      if (applyFilterOf env req f).allowed then acc.reasons
      else acc.reasons ++ [⟨f.name, (applyFilterOf env req f).reason⟩] := by
  unfold checkStep
  cases hfa : (applyFilterOf env req f).allowed <;>
    cases hff : (applyFilterOf env req f).flags <;> simp [hfa, hff]

theorem checkStep_flags (env : TrackEnv) (req : TrackRequest) (acc : CheckResult)
    (f : SafetyFilter) :
    (checkStep env req acc f).flags =
      match (applyFilterOf env req f).flags with
      | some fl => jsSet acc.flags f.name (TopFlag.obj fl)
      | none => acc.flags := by
  unfold checkStep
  cases hfa : (applyFilterOf env req f).allowed <;>
    cases hff : (applyFilterOf env req f).flags <;> simp [hfa, hff]

theorem checkLoop_allowed (env : TrackEnv) (req : TrackRequest) :
    ∀ (fs : List SafetyFilter) (acc : CheckResult),
      (checkLoop env req fs acc).allowed =
        (acc.allowed && fs.all (fun f => (applyFilterOf env req f).allowed))
  | [], acc => by simp [checkLoop]
  | f :: fs, acc => by
    simp only [checkLoop, checkLoop_allowed env req fs, checkStep_allowed,
      List.all_cons, Bool.and_assoc]

theorem checkLoop_reasons (env : TrackEnv) (req : TrackRequest) :
    ∀ (fs : List SafetyFilter) (acc : CheckResult),
      (checkLoop env req fs acc).reasons =
        acc.reasons ++
          (fs.filter (fun f => !(applyFilterOf env req f).allowed)).map
            (fun f => ⟨f.name, (applyFilterOf env req f).reason⟩)
  | [], acc => by simp [checkLoop]
  | f :: fs, acc => by
    simp only [checkLoop, checkLoop_reasons env req fs, checkStep_reasons]
    cases hfa : (applyFilterOf env req f).allowed <;>
      simp [hfa, List.filter_cons]

theorem jsSet_mem_self {β : Type} (m : List (String × β)) (k : String) (v : β) :
    (k, v) ∈ jsSet m k v := by
  unfold jsSet
  split
  · rename_i h
    rw [List.any_eq_true] at h
    obtain ⟨p, hp, he⟩ := h
    simp only [decide_eq_true_eq] at he
    exact List.mem_map.mpr ⟨p, hp, by simp [he]⟩
  · exact List.mem_append_right _ (List.mem_singleton.mpr rfl)

theorem jsSet_mem_of_ne {β : Type} (m : List (String × β)) (k : String) (v : β)
    (k2 : String) (v2 : β) (hne : k2 ≠ k) (h : (k, v) ∈ m) :
    (k, v) ∈ jsSet m k2 v2 := by
  unfold jsSet
  split
  · refine List.mem_map.mpr ⟨(k, v), h, ?_⟩
    simp [Ne.symm hne]
  · exact List.mem_append_left _ h

theorem checkLoop_flags_preserve (env : TrackEnv) (req : TrackRequest)
    (k : String) (v : TopFlag) :
    ∀ (fs : List SafetyFilter) (acc : CheckResult),
      (∀ f ∈ fs, f.name ≠ k) → (k, v) ∈ acc.flags →
      (k, v) ∈ (checkLoop env req fs acc).flags
  | [], acc, _, hmem => by simpa [checkLoop] using hmem
  | f :: fs, acc, hne, hmem => by
    simp only [checkLoop]
    refine checkLoop_flags_preserve env req k v fs _ (fun g hg => hne g (List.mem_cons_of_mem _ hg)) ?_
    rw [checkStep_flags]
    cases hff : (applyFilterOf env req f).flags with
    | none => exact hmem
    | some fl => exact jsSet_mem_of_ne _ _ _ _ _ (hne f (List.mem_cons_self f fs)) hmem

theorem checkLoop_flags_mem (env : TrackEnv) (req : TrackRequest) :
    ∀ (fs : List SafetyFilter) (acc : CheckResult),
      (fs.map SafetyFilter.name).Nodup →
      ∀ f ∈ fs, ∀ fl, (applyFilterOf env req f).flags = some fl →
        (f.name, TopFlag.obj fl) ∈ (checkLoop env req fs acc).flags
  | [], _, _, f, hf, _, _ => absurd hf (List.not_mem_nil f)
  | g :: fs, acc, hnd, f, hf, fl, hfl => by
    simp only [List.map_cons, List.nodup_cons] at hnd
    rcases List.mem_cons.mp hf with hfg | hftail
    · subst hfg
      simp only [checkLoop]
      refine checkLoop_flags_preserve env req _ _ fs _ ?_ ?_
      · intro g2 hg2 heq
        exact hnd.1 (heq ▸ List.mem_map_of_mem SafetyFilter.name hg2)
      · rw [checkStep_flags, hfl]
        exact jsSet_mem_self _ _ _
    · simp only [checkLoop]
      exact checkLoop_flags_mem env req fs _ hnd.2 f hftail fl hfl

theorem checkFilters_of_no_malformed (env : TrackEnv) (req : TrackRequest)
    (hok : ∀ f ∈ env.filters, f.rules.isMalformed = false) :
    checkFilters env req =
      checkLoop env req env.filters { allowed := true, reasons := [], flags := [] } := by
  unfold checkFilters
  rw [if_neg]
  simp only [List.any_eq_true, not_exists]
  rintro f ⟨hf, hm⟩
  simp [hok f hf] at hm

theorem checkFilters_allowed_of_malformed (env : TrackEnv) (req : TrackRequest)
    (h : ∃ f ∈ env.filters, f.rules.isMalformed = true) :
    checkFilters env req = filterCheckFallback := by
  unfold checkFilters
  rw [if_pos]
  rw [List.any_eq_true]
  obtain ⟨f, hf, hm⟩ := h
  exact ⟨f, hf, hm⟩

theorem no_malformed_of_denied (env : TrackEnv) (req : TrackRequest)
    (hd : (checkFilters env req).allowed = false) :
    ∀ f ∈ env.filters, f.rules.isMalformed = false := by
  intro f hf
  by_contra h
  rw [Bool.not_eq_false] at h
  rw [checkFilters_allowed_of_malformed env req ⟨f, hf, h⟩] at hd
  simp [filterCheckFallback] at hd

/-! ## Lemmas about the token counter -/

theorem lookup_multiplier (provider : String) :
    (TOKEN_MULTIPLIERS.lookup (jsToLower provider)).getD (5/4) = specProviderFactor provider := by
  unfold TOKEN_MULTIPLIERS specProviderFactor
  by_cases h1 : jsToLower provider = "openai"
  · simp [List.lookup, h1]
  · have e1 : (jsToLower provider == "openai") = false := beq_eq_false_iff_ne.mpr h1
    by_cases h2 : jsToLower provider = "anthropic"
    · simp [List.lookup, h2]
    · have e2 : (jsToLower provider == "anthropic") = false := beq_eq_false_iff_ne.mpr h2
      by_cases h3 : jsToLower provider = "google"
      · simp [List.lookup, h3]
      · have e3 : (jsToLower provider == "google") = false := beq_eq_false_iff_ne.mpr h3
        by_cases h4 : jsToLower provider = "default"
        · simp [List.lookup, h4, e1, e2, e3]
        · have e4 : (jsToLower provider == "default") = false := beq_eq_false_iff_ne.mpr h4
          simp [List.lookup, e1, e2, e3, e4, h1, h2, h3]

/-! ## Claim theorems -/

/-- C7: for every text and every provider string, `countTokens` equals
the ceiling of the whitespace-separated non-empty word count scaled by
the claimed provider factor (1.3 openai / 1.2 anthropic / 1.1 google /
1.25 otherwise, provider names compared case-insensitively as the code
lowercases them); the result is a `Nat`, hence a non-negative integer,
and absent or empty text yields 0. -/
theorem countTokens_matches_contract (text : String) (provider : String) :
    countTokens (some text) provider =
      jsCeilNat ((wordCount text : ℚ) * specProviderFactor provider)
    ∧ countTokens none provider = 0
    ∧ countTokens (some "") provider = 0 := by
  refine ⟨?_, rfl, rfl⟩
  by_cases h : text = ""
  · subst h
    have hw : wordCount "" = 0 := rfl
    simp [countTokens, hw, jsCeilNat]
  · simp [countTokens, h, lookup_multiplier, wordCount]

/-- C3: with every active filter's rules well-formed, the policy engine
evaluates all filters without short-circuiting: the aggregate denies
iff some filter denies, the reasons list has exactly one entry per
denying filter (in order), and — given distinct filter names — every
filter's contributed flag object is present in the aggregate flags,
regardless of which filter caused the denial. -/
theorem checkFilters_evaluates_all_filters (env : TrackEnv) (req : TrackRequest)
    (hok : ∀ f ∈ env.filters, f.rules.isMalformed = false)
    (hnd : (env.filters.map SafetyFilter.name).Nodup) :
    ((checkFilters env req).allowed = false ↔
      ∃ f ∈ env.filters, (applyFilterOf env req f).allowed = false)
    ∧ (checkFilters env req).reasons =
        (env.filters.filter (fun f => !(applyFilterOf env req f).allowed)).map
          (fun f => ⟨f.name, (applyFilterOf env req f).reason⟩)
    ∧ ∀ f ∈ env.filters, ∀ fl, (applyFilterOf env req f).flags = some fl →
        (f.name, TopFlag.obj fl) ∈ (checkFilters env req).flags := by
  rw [checkFilters_of_no_malformed env req hok]
  refine ⟨?_, ?_, ?_⟩
  · rw [checkLoop_allowed]
    simp [List.all_eq_true]
  · rw [checkLoop_reasons]
    simp
  · intro f hf fl hfl
    exact checkLoop_flags_mem env req env.filters _ hnd f hf fl hfl

/-- C3 witness: a blocked-keyword denial alongside a flag-contributing
rate filter. -/
theorem checkFilters_evaluates_all_filters_witness :
    ((∀ f ∈ denyEnv.filters, f.rules.isMalformed = false)
      ∧ (denyEnv.filters.map SafetyFilter.name).Nodup)
    ∧ (((checkFilters denyEnv bombReq).allowed = false ↔
          ∃ f ∈ denyEnv.filters, (applyFilterOf denyEnv bombReq f).allowed = false)
        ∧ (checkFilters denyEnv bombReq).reasons =
            (denyEnv.filters.filter (fun f => !(applyFilterOf denyEnv bombReq f).allowed)).map
              (fun f => ⟨f.name, (applyFilterOf denyEnv bombReq f).reason⟩)
        ∧ ∀ f ∈ denyEnv.filters, ∀ fl, (applyFilterOf denyEnv bombReq f).flags = some fl →
            (f.name, TopFlag.obj fl) ∈ (checkFilters denyEnv bombReq).flags) :=
  ⟨⟨by decide, by decide⟩,
    checkFilters_evaluates_all_filters denyEnv bombReq (by decide) (by decide)⟩

/-- C10: one malformed rules payload anywhere in the active filter list
makes `checkFilters` return the generic fallback — allowed, no reasons,
only the generic error flag — discarding every other filter's verdict,
including a denial. -/
theorem checkFilters_malformed_discards_all (env : TrackEnv) (req : TrackRequest)
    (h : ∃ f ∈ env.filters, f.rules.isMalformed = true) :
    checkFilters env req = filterCheckFallback
    ∧ (checkFilters env req).allowed = true
    ∧ (checkFilters env req).reasons = []
    ∧ (checkFilters env req).flags =
        [("error", TopFlag.str "Safety filter check failed")] := by
  have he := checkFilters_allowed_of_malformed env req h
  rw [he]
  exact ⟨rfl, rfl, rfl, rfl⟩

/-- C10 witness: the malformed filter sits after a filter that denies
the very same request, yet the aggregate allows it with only the error
flag. -/
theorem checkFilters_malformed_discards_all_witness :
    ((∃ f ∈ malformedEnv.filters, f.rules.isMalformed = true)
      ∧ (applyFilterOf malformedEnv bombReq kwFilter).allowed = false)
    ∧ (checkFilters malformedEnv bombReq = filterCheckFallback
        ∧ (checkFilters malformedEnv bombReq).allowed = true
        ∧ (checkFilters malformedEnv bombReq).reasons = []
        ∧ (checkFilters malformedEnv bombReq).flags =
            [("error", TopFlag.str "Safety filter check failed")]) :=
  ⟨⟨by decide, by decide⟩,
    checkFilters_malformed_discards_all malformedEnv bombReq (by decide)⟩

/-- C1: a validated track request that the policy engine denies gets a
denial response carrying the aggregate's reasons — which are exactly
the denying filters' reasons — and the usage store is returned
unchanged: no UsageRecord is persisted. -/
theorem runTrack_denied_persists_nothing (env : TrackEnv) (req : TrackRequest)
    (aiRes : Except String AiResponse) (store : List UsageRecord)
    (hv : validateTrack req = true)
    (hd : (checkFilters env req).allowed = false) :
    runTrack env req aiRes store = (.denied (checkFilters env req).reasons, store)
    ∧ (checkFilters env req).reasons =
        (env.filters.filter (fun f => !(applyFilterOf env req f).allowed)).map
          (fun f => ⟨f.name, (applyFilterOf env req f).reason⟩) := by
  constructor
  · simp [runTrack, hv, hd]
  · have hok := no_malformed_of_denied env req hd
    rw [checkFilters_of_no_malformed env req hok, checkLoop_reasons]
    simp

/-- C1 witness: the blocked-keyword request against the two active
filters. -/
theorem runTrack_denied_persists_nothing_witness :
    (validateTrack bombReq = true ∧ (checkFilters denyEnv bombReq).allowed = false)
    ∧ (runTrack denyEnv bombReq (.ok wResp) [] =
          (.denied (checkFilters denyEnv bombReq).reasons, [])
        ∧ (checkFilters denyEnv bombReq).reasons =
            (denyEnv.filters.filter (fun f => !(applyFilterOf denyEnv bombReq f).allowed)).map
              (fun f => ⟨f.name, (applyFilterOf denyEnv bombReq f).reason⟩)) :=
  ⟨⟨by decide, by decide⟩,
    runTrack_denied_persists_nothing denyEnv bombReq (.ok wResp) [] (by decide) (by decide)⟩

/-- C2: every record the pipeline persists — `finalRecord` is the one
record `runTrack` appends, in the success, hallucination and failure
branches alike — satisfies `total_tokens = input_tokens + output_tokens`
and `total_cost = input_tokens * cost_per_input_token + output_tokens *
cost_per_output_token`, exactly in `ℚ`. -/
theorem finalRecord_totals (env : TrackEnv) (req : TrackRequest)
    (aiRes : Except String AiResponse) :
    (finalRecord env req aiRes).total_tokens =
      (finalRecord env req aiRes).input_tokens + (finalRecord env req aiRes).output_tokens
    ∧ (finalRecord env req aiRes).total_cost =
        ((finalRecord env req aiRes).input_tokens : ℚ) *
          (finalRecord env req aiRes).cost_per_input_token
        + ((finalRecord env req aiRes).output_tokens : ℚ) *
          (finalRecord env req aiRes).cost_per_output_token := by
  cases aiRes with
  | error msg => simp [finalRecord, baseUsageData]
  | ok resp =>
    simp only [finalRecord]
    split <;> simp

/-- C4: a validated, policy-allowed request whose provider call fails
(whatever the cause) persists exactly one record, with status
`failure`, the provider's message as `error_message`, zero cost and
zero tokens — and the caller gets a completed response shape, not a
rethrown error. -/
theorem runTrack_provider_error_failure (env : TrackEnv) (req : TrackRequest)
    (msg : String) (store : List UsageRecord)
    (hv : validateTrack req = true)
    (ha : (checkFilters env req).allowed = true) :
    runTrack env req (.error msg) store =
      (.completed (respBody (finalRecord env req (.error msg))),
        store ++ [finalRecord env req (.error msg)])
    ∧ (finalRecord env req (.error msg)).status = "failure"
    ∧ (finalRecord env req (.error msg)).error_message = some msg
    ∧ (finalRecord env req (.error msg)).total_cost = 0
    ∧ (finalRecord env req (.error msg)).total_tokens = 0 := by
  refine ⟨?_, rfl, rfl, rfl, rfl⟩
  simp [runTrack, hv, ha]

/-- C4 witness: a credential failure against the filterless
environment. -/
theorem runTrack_provider_error_failure_witness :
    (validateTrack wReq = true ∧ (checkFilters wEnv wReq).allowed = true)
    ∧ (runTrack wEnv wReq (.error "invalid api key") [] =
          (.completed (respBody (finalRecord wEnv wReq (.error "invalid api key"))),
            [finalRecord wEnv wReq (.error "invalid api key")])
        ∧ (finalRecord wEnv wReq (.error "invalid api key")).status = "failure"
        ∧ (finalRecord wEnv wReq (.error "invalid api key")).error_message =
            some "invalid api key"
        ∧ (finalRecord wEnv wReq (.error "invalid api key")).total_cost = 0
        ∧ (finalRecord wEnv wReq (.error "invalid api key")).total_tokens = 0) :=
  ⟨⟨by decide, by decide⟩,
    runTrack_provider_error_failure wEnv wReq "invalid api key" [] (by decide) (by decide)⟩

theorem checkResponseQuality_ne_nil_of_long (p resp : String)
    (h : resp.length > p.length * 5) : checkResponseQuality p resp ≠ [] := by
  have hc : checkForHallucination p resp = true := by
    unfold checkForHallucination
    rw [if_pos h]
  unfold checkResponseQuality
  rw [hc]
  simp

theorem finalRecord_quality_escalates (env : TrackEnv) (req : TrackRequest)
    (resp : AiResponse)
    (h : checkResponseQuality (promptOf req) resp.response ≠ []) :
    (finalRecord env req (.ok resp)).status = "hallucination"
    ∧ (finalRecord env req (.ok resp)).total_cost =
        (countTokens req.prompt (req.model_provider.getD "") : ℚ) *
          (baseUsageData env req).cost_per_input_token
        + (countTokens (some resp.response) (req.model_provider.getD "") : ℚ) *
          (baseUsageData env req).cost_per_output_token := by
  have hl : (checkResponseQuality (promptOf req) resp.response).length > 0 :=
    List.length_pos.mpr h
  simp [finalRecord, hl]

/-- C5: quality classification happens only on the success path — a
failed provider call keeps the pre-check safety flags untouched and
status `failure` — and any non-empty quality flag list escalates the
status from success to `hallucination` while keeping the full computed
cost; in particular a response longer than five times the prompt is so
escalated. -/
theorem quality_flags_escalate_status (env : TrackEnv) (req : TrackRequest) :
    (∀ msg, (finalRecord env req (.error msg)).safety_flags = (checkFilters env req).flags
        ∧ (finalRecord env req (.error msg)).status = "failure")
    ∧ (∀ resp : AiResponse, checkResponseQuality (promptOf req) resp.response ≠ [] →
        (finalRecord env req (.ok resp)).status = "hallucination"
        ∧ (finalRecord env req (.ok resp)).total_cost =
            (countTokens req.prompt (req.model_provider.getD "") : ℚ) *
              (baseUsageData env req).cost_per_input_token
            + (countTokens (some resp.response) (req.model_provider.getD "") : ℚ) *
              (baseUsageData env req).cost_per_output_token)
    ∧ (∀ resp : AiResponse, resp.response.length > (promptOf req).length * 5 →
        (finalRecord env req (.ok resp)).status = "hallucination") :=
  ⟨fun _ => ⟨rfl, rfl⟩,
   fun resp h => finalRecord_quality_escalates env req resp h,
   fun resp h =>
     (finalRecord_quality_escalates env req resp
       (checkResponseQuality_ne_nil_of_long _ _ h)).1⟩

/-- C5 witness: a 26-character response to the 5-character prompt. -/
theorem quality_flags_escalate_status_witness :
    longResp.response.length > (promptOf wReq).length * 5
    ∧ (finalRecord wEnv wReq (.ok longResp)).status = "hallucination" :=
  ⟨by decide, (quality_flags_escalate_status wEnv wReq).2.2 longResp (by decide)⟩

/-- C6: a validated, policy-allowed request makes exactly one store
write: the store grows by the single record `finalRecord`, every
pre-existing record is untouched, and the written record's status is
terminal — never `processing` — so no second write revises it. -/
theorem runTrack_single_terminal_write (env : TrackEnv) (req : TrackRequest)
    (aiRes : Except String AiResponse) (store : List UsageRecord)
    (hv : validateTrack req = true)
    (ha : (checkFilters env req).allowed = true) :
    runTrack env req aiRes store =
      (.completed (respBody (finalRecord env req aiRes)),
        store ++ [finalRecord env req aiRes])
    ∧ (finalRecord env req aiRes).status ≠ "processing"
    ∧ ((finalRecord env req aiRes).status = "success"
        ∨ (finalRecord env req aiRes).status = "failure"
        ∨ (finalRecord env req aiRes).status = "hallucination") := by
  refine ⟨by simp [runTrack, hv, ha], ?_, ?_⟩
  · cases aiRes with
    | error msg => simp [finalRecord]
    | ok resp =>
      simp only [finalRecord]
      split <;> simp
  · cases aiRes with
    | error msg => exact Or.inr (Or.inl rfl)
    | ok resp =>
      simp only [finalRecord]
      split
      · exact Or.inr (Or.inr rfl)
      · exact Or.inl rfl

/-- C6 witness: a successful call against the filterless environment. -/
theorem runTrack_single_terminal_write_witness :
    (validateTrack wReq = true ∧ (checkFilters wEnv wReq).allowed = true)
    ∧ (runTrack wEnv wReq (.ok wResp) [] =
          (.completed (respBody (finalRecord wEnv wReq (.ok wResp))),
            [finalRecord wEnv wReq (.ok wResp)])
        ∧ (finalRecord wEnv wReq (.ok wResp)).status ≠ "processing"
        ∧ ((finalRecord wEnv wReq (.ok wResp)).status = "success"
            ∨ (finalRecord wEnv wReq (.ok wResp)).status = "failure"
            ∨ (finalRecord wEnv wReq (.ok wResp)).status = "hallucination")) :=
  ⟨⟨by decide, by decide⟩,
    runTrack_single_terminal_write wEnv wReq (.ok wResp) [] (by decide) (by decide)⟩

/-- C8: evaluating the retry pipeline at a concrete failed record shows
the divergence — the retry request carries
`options.retry_count = original.retry_count + 1 = 1` (visible in the
new record's metadata, where the options spread lands) and leaves the
original untouched, yet the persisted record's `retry_count` column is
the track handler's hard-coded 0, not 1. -/
theorem retry_does_not_increment_persisted_retry_count :
    c8Out.2.length = 2
    ∧ c8Out.2.headD c8Orig = c8Orig
    ∧ (c8Out.2.getLastD c8Orig).metadata.retry_of = some "orig-1"
    ∧ (c8Out.2.getLastD c8Orig).metadata.retry_count = some (c8Orig.retry_count + 1)
    ∧ c8Orig.retry_count + 1 = 1
    ∧ (c8Out.2.getLastD c8Orig).status = "success"
    ∧ (c8Out.2.getLastD c8Orig).retry_count = 0 := by
  decide

/-- C9 (amended): a track request missing any of the four required
fields — absent or empty, which covers the 1-character lower bound on
the prompt — is rejected with no record persisted and a result
independent of the provider oracle (no provider call is observable). -/
theorem track_missing_required_field_rejected (env : TrackEnv) (req : TrackRequest)
    (store : List UsageRecord)
    (h : req.model_provider = none ∨ req.model_provider = some "" ∨
         req.model_name = none ∨ req.model_name = some "" ∨
         req.prompt = none ∨ req.prompt = some "" ∨
         req.api_key = none ∨ req.api_key = some "") :
    ∀ aiRes, runTrack env req aiRes store = (.validationError, store) := by
  intro aiRes
  have hv : validateTrack req = false := by
    unfold validateTrack jsTruthyStr
    rcases h with h | h | h | h | h | h | h | h <;> rw [h] <;> simp
  simp [runTrack, hv]

/-- C9 witness: a request missing its credential is rejected without a
write. -/
theorem track_missing_required_field_rejected_witness :
    (noKeyReq.model_provider = none ∨ noKeyReq.model_provider = some "" ∨
     noKeyReq.model_name = none ∨ noKeyReq.model_name = some "" ∨
     noKeyReq.prompt = none ∨ noKeyReq.prompt = some "" ∨
     noKeyReq.api_key = none ∨ noKeyReq.api_key = some "")
    ∧ runTrack wEnv noKeyReq (.ok wResp) [] = (.validationError, []) :=
  ⟨by decide,
    track_missing_required_field_rejected wEnv noKeyReq [] (by decide) (.ok wResp)⟩

/-- C9 counterexample: the 50000-character ceiling is not enforced — a
50001-character prompt passes the track handler's validation, the
request proceeds and one record is persisted. -/
theorem overlong_prompt_not_rejected :
    cLongPrompt.length = 50001
    ∧ (runTrack wEnv cReqLong (.ok wResp) []).1 ≠ TrackResult.validationError
    ∧ (runTrack wEnv cReqLong (.ok wResp) []).2.length = 1 := by
  have hlen : cLongPrompt.length = 50001 := by
    rw [show cLongPrompt.length = (List.replicate 50001 'a').length from rfl,
      List.length_replicate]
  have hne : cLongPrompt ≠ "" := by
    intro h
    rw [h] at hlen
    simp at hlen
  have hv : validateTrack cReqLong = true := by
    simp [validateTrack, cReqLong, wReq, jsTruthyStr, hne]
  have ha : (checkFilters wEnv cReqLong).allowed = true := rfl
  refine ⟨hlen, ?_, ?_⟩ <;> simp [runTrack, hv, ha]

end Billfrog
